import Mathlib

/-!
Verification of the `BaseBuilder` class from
`src/packages/lavas-core-vue/core/builder/base-builder.js`.

The class orchestrates a webpack build for an SPA: it injects an HTML entry
template (`addHtmlPlugin`), validates skeleton routes against the filesystem
(`validateSkeletonRoutes`), optionally installs a skeleton webpack plugin
(`addSkeletonPlugin`), and assembles the SPA webpack config
(`createSPAConfig`).

Embedding conventions:
* The filesystem and the path helpers that live outside `src/`
  (`path.join`, `fs-extra.pathExists`, `resolveAliasPath`, `path.basename`,
  `camelCaseToDash` from `../utils/path`) are abstracted into an
  environment record `Env`; the theorems hold for every environment, and
  witnesses instantiate a concrete executable one.
* JS string fields that can be `undefined`/empty (falsy) are modelled as
  `String` with `""` playing the falsy value, matching the truthiness
  tests `!currentRoute.componentPath`, `route.skeletonId || ...` in the
  source (a present component path is a non-empty string).
* In-place mutation of route objects and of `this`/`spaConfig` becomes
  explicit state passing: methods take and return a `BuilderState`.
* `async`/`await` is sequential in the source (single-threaded, awaited in
  order), so it is modelled by direct-style sequencing; a `throw` inside a
  method is modelled by `Except.error`.
-/

/-- Webpack alias map, passed opaquely to `resolveAliasPath`
(its own code is outside `src/`). -/
abbrev Alias := List (String × String)

/-- Abstraction of the collaborators outside `src/`:
the filesystem snapshot and the path utilities. -/
structure Env where
  pathExists : String → Bool
  joinPath : String → String → String
  resolveAliasPath : Alias → String → String
  basename : String → String → String
  camelCaseToDash : String → String

/-- Modelled from the spec: constant `TEMPLATE_HTML` from `../constants`
(not under `src/`); the HTML template file name. -/
def TEMPLATE_HTML : String := "index.html.tmpl"

/-- Modelled from the spec: constant `DEFAULT_ENTRY_NAME` from
`../constants` (not under `src/`). -/
def DEFAULT_ENTRY_NAME : String := "index"

/-- Modelled from the spec: constant `DEFAULT_SKELETON_PATH` from
`../constants` (not under `src/`); the default skeleton component path. -/
def DEFAULT_SKELETON_PATH : String := "@/core/Skeleton.vue"

/-- A skeleton route descriptor (`skeleton.routes[i]` in the config).
`""` models an absent (falsy) field. -/
structure Route where
  path : String
  componentPath : String
  componentName : String := ""
  componentNameInDash : String := ""
  skeletonId : String := ""
  deriving Repr, DecidableEq

/-- The error descriptor returned by `validateSkeletonRoutes`:
an object with a `msg` field.  The source returns `false` on success,
modelled as `none` (`error && error.msg` is truthy exactly for `some`,
since every constructed descriptor has a non-empty message). -/
structure ValidationError where
  msg : String
  deriving Repr, DecidableEq

/-- Webpack plugins, abstracted to the data this module decides. -/
inductive Plugin where
  | htmlWebpackPlugin (filename : String) (templatePath : String)
  | skeletonWebpackPlugin (routerMode : String) (routes : List Route)
  | otherPlugin (tag : String)
  deriving Repr, DecidableEq

/-- The mutable part of `spaConfig` this module touches. -/
structure SpaConfig where
  entry : List (String × List String)
  plugins : List Plugin
  aliasObj : Alias
  name : String := ""
  context : String := ""
  deriving Repr, DecidableEq

/-- State threaded through the builder methods: the spa config under
construction, the (mutable) `this.config.skeleton.routes` list,
the `this.skeletonEnabled` flag, and the observable effects
(files written to `.lavas`, watchers added, console errors logged). -/
structure BuilderState where
  spa : SpaConfig
  skeletonRoutes : List Route
  skeletonEnabled : Bool := false
  written : List String := []
  watchers : List String := []
  logged : List String := []
  deriving Repr, DecidableEq

/-- Model of `lavasPath`: `join(this.config.globals.rootDir, './.lavas', path)`. -/
def lavasPath (env : Env) (rootDir : String) (p : String) : String :=
  env.joinPath (env.joinPath rootDir "./.lavas") p

/-- The inner loop of `validateSkeletonRoutes`
(`for (let j = 0; ...) if (await pathExists(resolvedPaths[j])) { ...; break; }`):
the first path in the list that exists, if any. -/
def firstExisting (pe : String → Bool) : List String → Option String
  | [] => none
  | p :: ps => if pe p then some p else firstExisting pe ps

/-- Model of `validateSkeletonRoutes(routes, alias)` (base-builder.js 255-289).
Walks the routes in order; a route with a falsy `componentPath` stops the
loop with a "required" descriptor; otherwise the two candidates
`join(rootDir, componentPath)` and `resolveAliasPath(alias, componentPath)`
are probed in order and the first existing one overwrites
`currentRoute.componentPath` in place; if neither exists the loop stops
with a "not existed" descriptor.  Returns the (partially) mutated routes
list together with `none` on success (`false` in JS) or the descriptor. -/
def validateSkeletonRoutes (env : Env) (rootDir : String) (al : Alias) :
    List Route → List Route × Option ValidationError
  | [] => ([], none)
  | r :: rest =>
    if r.componentPath = "" then
      (r :: rest,
       some { msg := "[Lavas] componentPath for " ++ r.path ++ " is required." })
    else
      match firstExisting env.pathExists
          [env.joinPath rootDir r.componentPath,
           env.resolveAliasPath al r.componentPath] with
      | some p =>
        let v := validateSkeletonRoutes env rootDir al rest
        ({ r with componentPath := p } :: v.1, v.2)
      | none =>
        (r :: rest,
         some { msg := "[Lavas] " ++ r.componentPath ++
                       " is not existed during the process of generating skeleton." })

/-- The route a failing-or-succeeding resolution step leaves behind:
the first existing candidate overwrites `componentPath`, otherwise the
route is left unchanged. -/
def resolveRoute (env : Env) (rootDir : String) (al : Alias) (r : Route) : Route :=
  match firstExisting env.pathExists
      [env.joinPath rootDir r.componentPath,
       env.resolveAliasPath al r.componentPath] with
  | some p => { r with componentPath := p }
  | none => r

/-- The per-route body of the `forEach` in `addSkeletonPlugin` (218-222):
`componentName = basename(componentPath, '.vue')`,
`componentNameInDash = camelCaseToDash(componentName)`,
`skeletonId = skeletonId || componentNameInDash`. -/
def annotateRoute (env : Env) (r : Route) : Route :=
  let componentName := env.basename r.componentPath ".vue"
  let componentNameInDash := env.camelCaseToDash componentName
  { r with
      componentName := componentName
      componentNameInDash := componentNameInDash
      skeletonId := if r.skeletonId = "" then componentNameInDash else r.skeletonId }

/-- The default route installed when `skeleton.routes` is undefined or
empty (base-builder.js 204-209). -/
def defaultSkeletonRoute : Route :=
  { path := "*", componentPath := DEFAULT_SKELETON_PATH }

/-- Model of `addSkeletonPlugin(spaConfig)` (base-builder.js 197-246).
Installs the default route when the list is missing/empty, validates,
and on error only logs `error.msg`; on success annotates every route,
sets `skeletonEnabled`, writes the skeleton entry file and pushes a
`SkeletonWebpackPlugin` onto `spaConfig.plugins`. -/
def addSkeletonPlugin (env : Env) (rootDir routerMode : String)
    (st : BuilderState) : BuilderState :=
  let routes0 :=
    if st.skeletonRoutes.isEmpty then [defaultSkeletonRoute] else st.skeletonRoutes
  let v := validateSkeletonRoutes env rootDir st.spa.aliasObj routes0
  match v.2 with
  | some e =>
    { st with skeletonRoutes := v.1, logged := st.logged ++ [e.msg] }
  | none =>
    let routes2 := v.1.map (annotateRoute env)
    { st with
        skeletonRoutes := routes2
        skeletonEnabled := true
        written := st.written ++ [lavasPath env rootDir "skeleton.js"]
        spa := { st.spa with
                   plugins := st.spa.plugins ++
                     [Plugin.skeletonWebpackPlugin routerMode routes2] } }

/-- Model of `addHtmlPlugin(spaConfig, baseUrl, watcherEnabled)` (base-builder.js
148-190).  Throws (modelled as `Except.error`) when the custom template
`join(rootDir, 'core/' + TEMPLATE_HTML)` does not exist; otherwise writes
the processed template into `.lavas`, unshifts an `HtmlWebpackPlugin`,
and registers a watcher in dev mode. -/
def addHtmlPlugin (env : Env) (rootDir : String) (watcherEnabled : Bool)
    (st : BuilderState) : Except String BuilderState :=
  let htmlFilename := DEFAULT_ENTRY_NAME ++ ".html"
  let customTemplatePath := env.joinPath rootDir ("core/" ++ TEMPLATE_HTML)
  if env.pathExists customTemplatePath = false then
    Except.error (TEMPLATE_HTML ++ " required for entry: " ++ DEFAULT_ENTRY_NAME)
  else
    let resolvedTemplatePath := lavasPath env rootDir TEMPLATE_HTML
    let st1 :=
      { st with
          written := st.written ++ [resolvedTemplatePath]
          spa := { st.spa with
                     plugins := Plugin.htmlWebpackPlugin htmlFilename
                                  resolvedTemplatePath :: st.spa.plugins } }
    let st2 :=
      if watcherEnabled then
        { st1 with watchers := st1.watchers ++ [customTemplatePath] }
      else st1
    Except.ok st2

/-- Model of `this.config.skeleton` (`enable` flag); `skeleton.routes` itself is
mutable state and lives in `BuilderState.skeletonRoutes`
(`[]` models both an undefined and an empty list, exactly the cases the
guard `!skeleton.routes || !skeleton.routes.length` accepts). -/
structure SkeletonCfg where
  enable : Bool
  deriving Repr, DecidableEq

/-- The slice of `this.config` that `createSPAConfig` reads. -/
structure Config where
  rootDir : String
  ssr : Bool
  routerMode : String
  routerBase : String
  skeleton : Option SkeletonCfg
  deriving Repr, DecidableEq

/-- Model of `createSPAConfig(watcherEnabled)` (base-builder.js 297-328).
Clears the entry and names the config; when `build.ssr` is false it sets
the client entry, awaits `addHtmlPlugin` and then, only when the skeleton
config exists with `enable` true, awaits `addSkeletonPlugin`. -/
def createSPAConfig (env : Env) (cfg : Config) (watcherEnabled : Bool)
    (st : BuilderState) : Except String BuilderState :=
  let st :=
    { st with spa := { st.spa with entry := [], name := "spaclient",
                                   context := cfg.rootDir } }
  if cfg.ssr = false then
    let st :=
      { st with spa := { st.spa with
          entry := [(DEFAULT_ENTRY_NAME, ["./core/entry-client.js"])] } }
    match addHtmlPlugin env cfg.rootDir watcherEnabled st with
    | Except.error e => Except.error e
    | Except.ok st1 =>
      match cfg.skeleton with
      | some sk =>
        if sk.enable then
          Except.ok (addSkeletonPlugin env cfg.rootDir cfg.routerMode st1)
        else Except.ok st1
      | none => Except.ok st1
  else
    Except.ok st

/-! Concrete executable environment used by the witnesses. -/

/-- A filesystem snapshot holding exactly the paths in `l`. -/
def fsOf (l : List String) : String → Bool := fun p => l.contains p

/-- A concrete environment over a given filesystem snapshot. -/
def mkEnv (l : List String) : Env where
  pathExists := fsOf l
  joinPath := fun a b => a ++ "/" ++ b
  resolveAliasPath := fun _ p => "/alias/" ++ p
  basename := fun p _ => "base-" ++ p
  camelCaseToDash := fun s => "dash-" ++ s

/-- An initial builder state for the witnesses. -/
def st0 (routes : List Route) : BuilderState where
  spa := { entry := [], plugins := [Plugin.otherPlugin "pre"], aliasObj := [] }
  skeletonRoutes := routes

/-! Helper lemmas (shared between claims). -/

/-- A route resolves when its componentPath is present and one of the two
candidates exists. -/
def routeResolves (env : Env) (rootDir : String) (al : Alias) (r : Route) : Bool :=
  (r.componentPath != "") &&
    (firstExisting env.pathExists
      [env.joinPath rootDir r.componentPath,
       env.resolveAliasPath al r.componentPath]).isSome

theorem firstExisting_exists (pe : String → Bool) (l : List String) (p : String)
    (h : firstExisting pe l = some p) : pe p = true := by
  induction l with
  | nil => simp [firstExisting] at h
  | cons q qs ih =>
    by_cases hq : pe q = true
    · simp [firstExisting, hq] at h
      simp [h] at hq
      exact hq
    · simp only [Bool.not_eq_true] at hq
      simp [firstExisting, hq] at h
      exact ih h

theorem validateSkeletonRoutes_cons_missing (env : Env) (rootDir : String)
    (al : Alias) (r : Route) (rest : List Route) (h : r.componentPath = "") :
    validateSkeletonRoutes env rootDir al (r :: rest) =
      (r :: rest,
       some { msg := "[Lavas] componentPath for " ++ r.path ++ " is required." }) := by
  simp [validateSkeletonRoutes, h]

theorem validateSkeletonRoutes_cons_resolved (env : Env) (rootDir : String)
    (al : Alias) (r : Route) (rest : List Route) (p : String)
    (h : r.componentPath ≠ "")
    (hp : firstExisting env.pathExists
      [env.joinPath rootDir r.componentPath,
       env.resolveAliasPath al r.componentPath] = some p) :
    validateSkeletonRoutes env rootDir al (r :: rest) =
      ({ r with componentPath := p } ::
        (validateSkeletonRoutes env rootDir al rest).1,
       (validateSkeletonRoutes env rootDir al rest).2) := by
  simp [validateSkeletonRoutes, h, hp]

theorem validateSkeletonRoutes_cons_unresolved (env : Env) (rootDir : String)
    (al : Alias) (r : Route) (rest : List Route)
    (h : r.componentPath ≠ "")
    (hp : firstExisting env.pathExists
      [env.joinPath rootDir r.componentPath,
       env.resolveAliasPath al r.componentPath] = none) :
    validateSkeletonRoutes env rootDir al (r :: rest) =
      (r :: rest,
       some { msg := "[Lavas] " ++ r.componentPath ++
                     " is not existed during the process of generating skeleton." }) := by
  simp [validateSkeletonRoutes, h, hp]

/-! Claim theorems. -/

/-- C1: for a route with a non-empty `componentPath`, `validateSkeletonRoutes`
performs a linear search over exactly the two candidates
`join(rootDir, componentPath)` then `resolveAliasPath(alias, componentPath)`,
in that order: the first existing one is assigned to the route's
`componentPath`, and when neither exists an error descriptor with a `msg`
field is returned. -/
theorem validateSkeletonRoutes_linear_search (env : Env) (rootDir : String)
    (al : Alias) (r : Route) (rest : List Route) (h : r.componentPath ≠ "") :
    (env.pathExists (env.joinPath rootDir r.componentPath) = true →
      (validateSkeletonRoutes env rootDir al (r :: rest)).1.head? =
        some { r with componentPath := env.joinPath rootDir r.componentPath }) ∧
    (env.pathExists (env.joinPath rootDir r.componentPath) = false →
     env.pathExists (env.resolveAliasPath al r.componentPath) = true →
      (validateSkeletonRoutes env rootDir al (r :: rest)).1.head? =
        some { r with componentPath := env.resolveAliasPath al r.componentPath }) ∧
    (env.pathExists (env.joinPath rootDir r.componentPath) = false →
     env.pathExists (env.resolveAliasPath al r.componentPath) = false →
      (validateSkeletonRoutes env rootDir al (r :: rest)).2 =
        some { msg := "[Lavas] " ++ r.componentPath ++
                      " is not existed during the process of generating skeleton." }) := by
  refine ⟨fun h1 => ?_, fun h1 h2 => ?_, fun h1 h2 => ?_⟩
  · rw [validateSkeletonRoutes_cons_resolved env rootDir al r rest
      (env.joinPath rootDir r.componentPath) h (by simp [firstExisting, h1])]
    rfl
  · rw [validateSkeletonRoutes_cons_resolved env rootDir al r rest
      (env.resolveAliasPath al r.componentPath) h (by simp [firstExisting, h1, h2])]
    rfl
  · rw [validateSkeletonRoutes_cons_unresolved env rootDir al r rest h
      (by simp [firstExisting, h1, h2])]

/-- Witness for C1 at a concrete input: the first candidate exists and is
assigned. -/
theorem validateSkeletonRoutes_linear_search_witness :
    (({ path := "/a", componentPath := "comp.vue" } : Route).componentPath ≠ "") ∧
    (validateSkeletonRoutes (mkEnv ["/root/comp.vue"]) "/root" []
        [{ path := "/a", componentPath := "comp.vue" }]).1.head? =
      some { path := "/a", componentPath := "/root/comp.vue" } := by
  refine ⟨by decide, ?_⟩
  have h := (validateSkeletonRoutes_linear_search (mkEnv ["/root/comp.vue"]) "/root" []
    { path := "/a", componentPath := "comp.vue" } [] (by decide)).1 (by decide)
  simpa using h

/-- C2: a routes list containing a route with a falsy `componentPath` never
validates successfully (the result is an error descriptor, not `false`);
and when the first such route is reached with every earlier route resolving,
the message names that route's path and says componentPath is required. -/
theorem validateSkeletonRoutes_missing_required (env : Env) (rootDir : String)
    (al : Alias) :
    (∀ routes : List Route, (∃ r ∈ routes, r.componentPath = "") →
      (validateSkeletonRoutes env rootDir al routes).2.isSome = true) ∧
    (∀ (pre : List Route) (r : Route) (rest : List Route),
      (∀ q ∈ pre, routeResolves env rootDir al q = true) →
      r.componentPath = "" →
      (validateSkeletonRoutes env rootDir al (pre ++ r :: rest)).2 =
        some { msg := "[Lavas] componentPath for " ++ r.path ++ " is required." }) := by
  constructor
  · intro routes
    induction routes with
    | nil => rintro ⟨r, hr, -⟩; simp at hr
    | cons q qs ih =>
      rintro ⟨r, hr, hcp⟩
      by_cases hq : q.componentPath = ""
      · rw [validateSkeletonRoutes_cons_missing env rootDir al q qs hq]
        rfl
      · rcases List.mem_cons.mp hr with rfl | hmem
        · exact absurd hcp hq
        · cases hfe : firstExisting env.pathExists
            [env.joinPath rootDir q.componentPath,
             env.resolveAliasPath al q.componentPath] with
          | none =>
            rw [validateSkeletonRoutes_cons_unresolved env rootDir al q qs hq hfe]
            rfl
          | some p =>
            rw [validateSkeletonRoutes_cons_resolved env rootDir al q qs p hq hfe]
            exact ih ⟨r, hmem, hcp⟩
  · intro pre r rest hpre hr
    induction pre with
    | nil =>
      rw [List.nil_append, validateSkeletonRoutes_cons_missing env rootDir al r rest hr]
    | cons q qs ih =>
      have hq := hpre q (List.mem_cons_self q qs)
      simp only [routeResolves, Bool.and_eq_true, bne_iff_ne, ne_eq,
        Option.isSome_iff_exists] at hq
      obtain ⟨hqcp, p, hp⟩ := hq
      rw [List.cons_append,
        validateSkeletonRoutes_cons_resolved env rootDir al q (qs ++ r :: rest) p hqcp hp]
      exact ih fun x hx => hpre x (List.mem_cons_of_mem q hx)

/-- Witness for C2 at a concrete input: a list whose second route misses its
componentPath, after a first route that resolves. -/
theorem validateSkeletonRoutes_missing_required_witness :
    ((∃ r ∈ [({ path := "/a", componentPath := "comp.vue" } : Route),
             { path := "/b", componentPath := "" }], r.componentPath = "") ∧
      (validateSkeletonRoutes (mkEnv ["/root/comp.vue"]) "/root" []
        [{ path := "/a", componentPath := "comp.vue" },
         { path := "/b", componentPath := "" }]).2.isSome = true) ∧
    (validateSkeletonRoutes (mkEnv ["/root/comp.vue"]) "/root" []
        ([{ path := "/a", componentPath := "comp.vue" }] ++
          { path := "/b", componentPath := "" } :: [])).2 =
      some { msg := "[Lavas] componentPath for /b is required." } := by
  constructor
  · constructor
    · exact ⟨{ path := "/b", componentPath := "" }, by simp, rfl⟩
    · exact (validateSkeletonRoutes_missing_required (mkEnv ["/root/comp.vue"])
        "/root" []).1 _ ⟨{ path := "/b", componentPath := "" }, by simp, rfl⟩
  · exact (validateSkeletonRoutes_missing_required (mkEnv ["/root/comp.vue"])
      "/root" []).2 [{ path := "/a", componentPath := "comp.vue" }]
      { path := "/b", componentPath := "" } [] (by decide) rfl

/-- C3: when `validateSkeletonRoutes` succeeds (returns `false`), every route
in the (updated) list holds a resolved componentPath that exists on disk. -/
theorem validateSkeletonRoutes_success_invariant (env : Env) (rootDir : String)
    (al : Alias) (routes : List Route)
    (h : (validateSkeletonRoutes env rootDir al routes).2 = none) :
    ∀ r ∈ (validateSkeletonRoutes env rootDir al routes).1,
      env.pathExists r.componentPath = true := by
  induction routes with
  | nil => intro r hr; simp [validateSkeletonRoutes] at hr
  | cons q qs ih =>
    by_cases hq : q.componentPath = ""
    · rw [validateSkeletonRoutes_cons_missing env rootDir al q qs hq] at h
      simp at h
    · cases hfe : firstExisting env.pathExists
        [env.joinPath rootDir q.componentPath,
         env.resolveAliasPath al q.componentPath] with
      | none =>
        rw [validateSkeletonRoutes_cons_unresolved env rootDir al q qs hq hfe] at h
        simp at h
      | some p =>
        rw [validateSkeletonRoutes_cons_resolved env rootDir al q qs p hq hfe] at h ⊢
        intro r hr
        rcases List.mem_cons.mp hr with rfl | hmem
        · exact firstExisting_exists env.pathExists _ p hfe
        · exact ih h r hmem

/-- Witness for C3 at a concrete input: both routes resolve (one through the
rootDir join, one through the alias) and the resulting paths exist. -/
theorem validateSkeletonRoutes_success_invariant_witness :
    ((validateSkeletonRoutes (mkEnv ["/root/comp.vue", "/alias/other.vue"])
        "/root" []
        [{ path := "/a", componentPath := "comp.vue" },
         { path := "/b", componentPath := "other.vue" }]).2 = none) ∧
    ∀ r ∈ (validateSkeletonRoutes (mkEnv ["/root/comp.vue", "/alias/other.vue"])
        "/root" []
        [{ path := "/a", componentPath := "comp.vue" },
         { path := "/b", componentPath := "other.vue" }]).1,
      (mkEnv ["/root/comp.vue", "/alias/other.vue"]).pathExists r.componentPath = true := by
  refine ⟨by decide, ?_⟩
  exact validateSkeletonRoutes_success_invariant
    (mkEnv ["/root/comp.vue", "/alias/other.vue"]) "/root" [] _ (by decide)

/-- C9: validation is not atomic on failure: when the list is a resolving
prefix followed by a failing route, an error descriptor is returned and the
output list has every prefix route overwritten in place with its resolved
path, while the failing route and the suffix are untouched. -/
theorem validateSkeletonRoutes_partial_mutation (env : Env) (rootDir : String)
    (al : Alias) (pre : List Route) (bad : Route) (rest : List Route)
    (hpre : ∀ q ∈ pre, routeResolves env rootDir al q = true)
    (hbad : routeResolves env rootDir al bad = false) :
    (validateSkeletonRoutes env rootDir al (pre ++ bad :: rest)).2.isSome = true ∧
    (validateSkeletonRoutes env rootDir al (pre ++ bad :: rest)).1 =
      pre.map (resolveRoute env rootDir al) ++ bad :: rest := by
  induction pre with
  | nil =>
    simp only [List.nil_append, List.map_nil]
    by_cases hb : bad.componentPath = ""
    · rw [validateSkeletonRoutes_cons_missing env rootDir al bad rest hb]
      exact ⟨rfl, rfl⟩
    · have hfe : firstExisting env.pathExists
          [env.joinPath rootDir bad.componentPath,
           env.resolveAliasPath al bad.componentPath] = none := by
        simp only [routeResolves, Bool.and_eq_false_iff, bne_eq_false_iff_eq] at hbad
        rcases hbad with hbad | hbad
        · exact absurd hbad hb
        · exact Option.not_isSome_iff_eq_none.mp (by simp [hbad])
      rw [validateSkeletonRoutes_cons_unresolved env rootDir al bad rest hb hfe]
      exact ⟨rfl, rfl⟩
  | cons q qs ih =>
    have hq := hpre q (List.mem_cons_self q qs)
    simp only [routeResolves, Bool.and_eq_true, bne_iff_ne, ne_eq,
      Option.isSome_iff_exists] at hq
    obtain ⟨hqcp, p, hp⟩ := hq
    have ihh := ih fun x hx => hpre x (List.mem_cons_of_mem q hx)
    rw [List.cons_append,
      validateSkeletonRoutes_cons_resolved env rootDir al q (qs ++ bad :: rest) p hqcp hp]
    refine ⟨ihh.1, ?_⟩
    simp only [List.map_cons, List.cons_append, List.cons.injEq]
    exact ⟨by simp [resolveRoute, hp], ihh.2⟩

/-- Witness for C9 at a concrete input: the first route resolves and is
overwritten, the second fails, the third is untouched. -/
theorem validateSkeletonRoutes_partial_mutation_witness :
    ((∀ q ∈ [({ path := "/a", componentPath := "comp.vue" } : Route)],
        routeResolves (mkEnv ["/root/comp.vue"]) "/root" [] q = true) ∧
     routeResolves (mkEnv ["/root/comp.vue"]) "/root" []
        { path := "/b", componentPath := "nope.vue" } = false) ∧
    (validateSkeletonRoutes (mkEnv ["/root/comp.vue"]) "/root" []
        ([{ path := "/a", componentPath := "comp.vue" }] ++
          { path := "/b", componentPath := "nope.vue" } ::
          [{ path := "/c", componentPath := "later.vue" }])).2.isSome = true ∧
    (validateSkeletonRoutes (mkEnv ["/root/comp.vue"]) "/root" []
        ([{ path := "/a", componentPath := "comp.vue" }] ++
          { path := "/b", componentPath := "nope.vue" } ::
          [{ path := "/c", componentPath := "later.vue" }])).1 =
      [{ path := "/a", componentPath := "comp.vue" }].map
          (resolveRoute (mkEnv ["/root/comp.vue"]) "/root" []) ++
        { path := "/b", componentPath := "nope.vue" } ::
        [{ path := "/c", componentPath := "later.vue" }] := by
  refine ⟨⟨by decide, by decide⟩, ?_⟩
  exact validateSkeletonRoutes_partial_mutation (mkEnv ["/root/comp.vue"]) "/root" []
    [{ path := "/a", componentPath := "comp.vue" }]
    { path := "/b", componentPath := "nope.vue" }
    [{ path := "/c", componentPath := "later.vue" }] (by decide) (by decide)

/-- C6: when validation fails, `addSkeletonPlugin` only logs the message:
the resulting state differs from the input only in the (partially mutated)
skeleton routes and the appended log line — `spaConfig.plugins` is
unchanged (no SkeletonWebpackPlugin pushed), no entry file is written,
`skeletonEnabled` keeps its value and no route is annotated. -/
theorem addSkeletonPlugin_error_only_logs (env : Env) (rootDir routerMode : String)
    (st : BuilderState) (e : ValidationError)
    (h : (validateSkeletonRoutes env rootDir st.spa.aliasObj
      (if st.skeletonRoutes.isEmpty then [defaultSkeletonRoute]
       else st.skeletonRoutes)).2 = some e) :
    addSkeletonPlugin env rootDir routerMode st =
      { st with
          skeletonRoutes := (validateSkeletonRoutes env rootDir st.spa.aliasObj
            (if st.skeletonRoutes.isEmpty then [defaultSkeletonRoute]
             else st.skeletonRoutes)).1
          logged := st.logged ++ [e.msg] } := by
  simp only [addSkeletonPlugin, h]

/-- Witness for C6 at a concrete input: an unresolvable route makes
validation fail; the plugin method only logs. -/
theorem addSkeletonPlugin_error_only_logs_witness :
    ((validateSkeletonRoutes (mkEnv []) "/root"
        (st0 [{ path := "/b", componentPath := "nope.vue" }]).spa.aliasObj
        (if (st0 [{ path := "/b", componentPath := "nope.vue" }]).skeletonRoutes.isEmpty
         then [defaultSkeletonRoute]
         else (st0 [{ path := "/b", componentPath := "nope.vue" }]).skeletonRoutes)).2 =
      some { msg := "[Lavas] nope.vue is not existed during the process of generating skeleton." }) ∧
    addSkeletonPlugin (mkEnv []) "/root" "history"
        (st0 [{ path := "/b", componentPath := "nope.vue" }]) =
      { st0 [{ path := "/b", componentPath := "nope.vue" }] with
          skeletonRoutes := (validateSkeletonRoutes (mkEnv []) "/root"
            (st0 [{ path := "/b", componentPath := "nope.vue" }]).spa.aliasObj
            (if (st0 [{ path := "/b", componentPath := "nope.vue" }]).skeletonRoutes.isEmpty
             then [defaultSkeletonRoute]
             else (st0 [{ path := "/b", componentPath := "nope.vue" }]).skeletonRoutes)).1
          logged := (st0 [{ path := "/b", componentPath := "nope.vue" }]).logged ++
            ["[Lavas] nope.vue is not existed during the process of generating skeleton."] } := by
  refine ⟨by decide, ?_⟩
  exact addSkeletonPlugin_error_only_logs (mkEnv []) "/root" "history"
    (st0 [{ path := "/b", componentPath := "nope.vue" }])
    { msg := "[Lavas] nope.vue is not existed during the process of generating skeleton." }
    (by decide)

/-- C8: with an undefined or empty `skeleton.routes`, `addSkeletonPlugin`
first installs the single default route (path `*`, the default skeleton
component) into the shared config and then behaves exactly as if the user
had provided that route. -/
theorem addSkeletonPlugin_default_route (env : Env) (rootDir routerMode : String)
    (st : BuilderState) (h : st.skeletonRoutes = []) :
    addSkeletonPlugin env rootDir routerMode st =
      addSkeletonPlugin env rootDir routerMode
        { st with skeletonRoutes := [defaultSkeletonRoute] } := by
  cases st with
  | mk spa sr en w wa lg =>
    simp only at h
    subst h
    simp only [addSkeletonPlugin]
    rfl

/-- Witness for C8 at a concrete input. -/
theorem addSkeletonPlugin_default_route_witness :
    ((st0 []).skeletonRoutes = []) ∧
    addSkeletonPlugin (mkEnv ["/root/@/core/Skeleton.vue"]) "/root" "history" (st0 []) =
      addSkeletonPlugin (mkEnv ["/root/@/core/Skeleton.vue"]) "/root" "history"
        { st0 [] with skeletonRoutes := [defaultSkeletonRoute] } := by
  refine ⟨rfl, ?_⟩
  exact addSkeletonPlugin_default_route (mkEnv ["/root/@/core/Skeleton.vue"])
    "/root" "history" (st0 []) rfl

/-- C10: after a successful validation, `addSkeletonPlugin` replaces the
skeleton routes with their annotated versions, where annotation sets
`componentName` to `basename(componentPath, '.vue')` of the resolved path,
`componentNameInDash` to `camelCaseToDash(componentName)`, and `skeletonId`
to `componentNameInDash` only when the route had no truthy `skeletonId`;
a user-provided `skeletonId` is preserved unchanged. -/
theorem addSkeletonPlugin_annotates (env : Env) (rootDir routerMode : String)
    (st : BuilderState)
    (h : (validateSkeletonRoutes env rootDir st.spa.aliasObj
      (if st.skeletonRoutes.isEmpty then [defaultSkeletonRoute]
       else st.skeletonRoutes)).2 = none) :
    (addSkeletonPlugin env rootDir routerMode st).skeletonRoutes =
      (validateSkeletonRoutes env rootDir st.spa.aliasObj
        (if st.skeletonRoutes.isEmpty then [defaultSkeletonRoute]
         else st.skeletonRoutes)).1.map (annotateRoute env) ∧
    ∀ r : Route,
      (annotateRoute env r).componentName = env.basename r.componentPath ".vue" ∧
      (annotateRoute env r).componentNameInDash =
        env.camelCaseToDash ((annotateRoute env r).componentName) ∧
      (r.skeletonId ≠ "" → (annotateRoute env r).skeletonId = r.skeletonId) ∧
      (r.skeletonId = "" →
        (annotateRoute env r).skeletonId = (annotateRoute env r).componentNameInDash) := by
  constructor
  · simp only [addSkeletonPlugin, h]
  · intro r
    refine ⟨rfl, rfl, fun hne => ?_, fun heq => ?_⟩
    · simp [annotateRoute, hne]
    · simp [annotateRoute, heq]

/-- Witness for C10 at a concrete input: two resolvable routes, one with a
user-provided skeletonId (preserved) and one without (derived). -/
theorem addSkeletonPlugin_annotates_witness :
    ((validateSkeletonRoutes (mkEnv ["/root/a.vue", "/root/b.vue"]) "/root"
        (st0 [{ path := "/a", componentPath := "a.vue" },
              { path := "/b", componentPath := "b.vue", skeletonId := "mine" }]).spa.aliasObj
        (if (st0 [{ path := "/a", componentPath := "a.vue" },
                  { path := "/b", componentPath := "b.vue", skeletonId := "mine" }]).skeletonRoutes.isEmpty
         then [defaultSkeletonRoute]
         else (st0 [{ path := "/a", componentPath := "a.vue" },
                    { path := "/b", componentPath := "b.vue", skeletonId := "mine" }]).skeletonRoutes)).2 =
      none) ∧
    (addSkeletonPlugin (mkEnv ["/root/a.vue", "/root/b.vue"]) "/root" "history"
        (st0 [{ path := "/a", componentPath := "a.vue" },
              { path := "/b", componentPath := "b.vue", skeletonId := "mine" }])).skeletonRoutes =
      (validateSkeletonRoutes (mkEnv ["/root/a.vue", "/root/b.vue"]) "/root"
        (st0 [{ path := "/a", componentPath := "a.vue" },
              { path := "/b", componentPath := "b.vue", skeletonId := "mine" }]).spa.aliasObj
        (if (st0 [{ path := "/a", componentPath := "a.vue" },
                  { path := "/b", componentPath := "b.vue", skeletonId := "mine" }]).skeletonRoutes.isEmpty
         then [defaultSkeletonRoute]
         else (st0 [{ path := "/a", componentPath := "a.vue" },
                    { path := "/b", componentPath := "b.vue", skeletonId := "mine" }]).skeletonRoutes)).1.map
        (annotateRoute (mkEnv ["/root/a.vue", "/root/b.vue"])) := by
  refine ⟨by decide, ?_⟩
  exact (addSkeletonPlugin_annotates (mkEnv ["/root/a.vue", "/root/b.vue"]) "/root"
    "history"
    (st0 [{ path := "/a", componentPath := "a.vue" },
          { path := "/b", componentPath := "b.vue", skeletonId := "mine" }])
    (by decide)).1

/-- C5: `addHtmlPlugin` throws (modelled `Except.error`, in contrast to the
returned error descriptors of `validateSkeletonRoutes`) exactly when the
custom template `join(rootDir, 'core/' + TEMPLATE_HTML)` does not exist,
with the message naming TEMPLATE_HTML and DEFAULT_ENTRY_NAME; the check is
a single test with no retry or recovery. -/
theorem addHtmlPlugin_throws_iff_template_missing (env : Env) (rootDir : String)
    (w : Bool) (st : BuilderState) :
    ((∃ e, addHtmlPlugin env rootDir w st = Except.error e) ↔
      env.pathExists (env.joinPath rootDir ("core/" ++ TEMPLATE_HTML)) = false) ∧
    (env.pathExists (env.joinPath rootDir ("core/" ++ TEMPLATE_HTML)) = false →
      addHtmlPlugin env rootDir w st =
        Except.error (TEMPLATE_HTML ++ " required for entry: " ++ DEFAULT_ENTRY_NAME)) := by
  constructor
  · by_cases hp : env.pathExists (env.joinPath rootDir ("core/" ++ TEMPLATE_HTML)) = false
    · simp [addHtmlPlugin, hp]
    · simp only [Bool.not_eq_false] at hp
      simp [addHtmlPlugin, hp]
  · intro hp
    simp [addHtmlPlugin, hp]

/-- Witness for C5 at a concrete input: empty filesystem, so the template is
missing and the error is thrown with the stated message. -/
theorem addHtmlPlugin_throws_iff_template_missing_witness :
    ((mkEnv []).pathExists ((mkEnv []).joinPath "/root" ("core/" ++ TEMPLATE_HTML)) = false) ∧
    addHtmlPlugin (mkEnv []) "/root" false (st0 []) =
      Except.error (TEMPLATE_HTML ++ " required for entry: " ++ DEFAULT_ENTRY_NAME) := by
  refine ⟨by decide, ?_⟩
  exact (addHtmlPlugin_throws_iff_template_missing (mkEnv []) "/root" false (st0 [])).2
    (by decide)

/-- C4: with `build.ssr` false, when both the HTML template and the skeleton
route component files are absent, `createSPAConfig` reports the
first-encountered failure: `addHtmlPlugin` is awaited before
`addSkeletonPlugin`, so the whole call fails with the missing-template
error and skeleton-route validation is never reached. -/
theorem createSPAConfig_first_failure (env : Env) (cfg : Config) (w : Bool)
    (st : BuilderState)
    (hssr : cfg.ssr = false)
    (htmpl : env.pathExists (env.joinPath cfg.rootDir ("core/" ++ TEMPLATE_HTML)) = false)
    (_hskel : ∀ r ∈ (if st.skeletonRoutes.isEmpty then [defaultSkeletonRoute]
                    else st.skeletonRoutes),
      env.pathExists (env.joinPath cfg.rootDir r.componentPath) = false ∧
      env.pathExists (env.resolveAliasPath st.spa.aliasObj r.componentPath) = false) :
    createSPAConfig env cfg w st =
      Except.error (TEMPLATE_HTML ++ " required for entry: " ++ DEFAULT_ENTRY_NAME) := by
  simp [createSPAConfig, hssr, addHtmlPlugin, htmpl]

/-- Witness for C4 at a concrete input: empty filesystem, one skeleton
route; the reported error is the missing-template one. -/
theorem createSPAConfig_first_failure_witness :
    (({ rootDir := "/root", ssr := false, routerMode := "history",
        routerBase := "/", skeleton := some { enable := true } } : Config).ssr = false ∧
     (mkEnv []).pathExists ((mkEnv []).joinPath "/root" ("core/" ++ TEMPLATE_HTML)) = false ∧
     ∀ r ∈ (if (st0 [{ path := "/a", componentPath := "a.vue" }]).skeletonRoutes.isEmpty
            then [defaultSkeletonRoute]
            else (st0 [{ path := "/a", componentPath := "a.vue" }]).skeletonRoutes),
       (mkEnv []).pathExists ((mkEnv []).joinPath "/root" r.componentPath) = false ∧
       (mkEnv []).pathExists ((mkEnv []).resolveAliasPath
         (st0 [{ path := "/a", componentPath := "a.vue" }]).spa.aliasObj r.componentPath) = false) ∧
    createSPAConfig (mkEnv [])
        { rootDir := "/root", ssr := false, routerMode := "history",
          routerBase := "/", skeleton := some { enable := true } } false
        (st0 [{ path := "/a", componentPath := "a.vue" }]) =
      Except.error (TEMPLATE_HTML ++ " required for entry: " ++ DEFAULT_ENTRY_NAME) := by
  refine ⟨⟨rfl, by decide, by decide⟩, ?_⟩
  exact createSPAConfig_first_failure (mkEnv [])
    { rootDir := "/root", ssr := false, routerMode := "history",
      routerBase := "/", skeleton := some { enable := true } } false
    (st0 [{ path := "/a", componentPath := "a.vue" }]) rfl (by decide) (by decide)

/-- C7: skeleton generation is optional and conditional. When `build.ssr` is
true, `createSPAConfig` adds neither plugin and the entry stays empty; when
`build.ssr` is false it runs the HTML-plugin step, and runs the
skeleton-plugin step exactly on the HTML step's success and only when the
skeleton config exists with `enable` true; the HTML step, when it succeeds,
unshifts the HtmlWebpackPlugin and touches no entry. -/
theorem createSPAConfig_conditional (env : Env) (cfg : Config) (w : Bool)
    (st : BuilderState) :
    (cfg.ssr = true →
      createSPAConfig env cfg w st =
        Except.ok { st with spa := { st.spa with
          entry := [], name := "spaclient", context := cfg.rootDir } }) ∧
    (cfg.ssr = false →
     (cfg.skeleton = none ∨ ∃ sk, cfg.skeleton = some sk ∧ sk.enable = false) →
      createSPAConfig env cfg w st =
        addHtmlPlugin env cfg.rootDir w
          { st with spa := { st.spa with
              entry := [(DEFAULT_ENTRY_NAME, ["./core/entry-client.js"])],
              name := "spaclient", context := cfg.rootDir } }) ∧
    (cfg.ssr = false →
     ∀ sk, cfg.skeleton = some sk → sk.enable = true →
      createSPAConfig env cfg w st =
        (addHtmlPlugin env cfg.rootDir w
          { st with spa := { st.spa with
              entry := [(DEFAULT_ENTRY_NAME, ["./core/entry-client.js"])],
              name := "spaclient", context := cfg.rootDir } }).map
          (addSkeletonPlugin env cfg.rootDir cfg.routerMode)) ∧
    (∀ stA st1 : BuilderState,
      addHtmlPlugin env cfg.rootDir w stA = Except.ok st1 →
      st1.spa.plugins = Plugin.htmlWebpackPlugin (DEFAULT_ENTRY_NAME ++ ".html")
          (lavasPath env cfg.rootDir TEMPLATE_HTML) :: stA.spa.plugins ∧
      st1.spa.entry = stA.spa.entry) := by
  obtain ⟨⟨entry, plugins, aliasObj, nm, ctx⟩, sr, en, wr, wa, lg⟩ := st
  refine ⟨fun hssr => ?_, ?_, ?_, ?_⟩
  · simp [createSPAConfig, hssr]
  · rintro hssr (hnone | ⟨sk, hsk, hen⟩)
    · simp [createSPAConfig, hssr, hnone]
      split
      · rename_i heq
        exact heq.symm
      · rename_i heq
        exact heq.symm
    · simp [createSPAConfig, hssr, hsk, hen]
      split
      · rename_i heq
        exact heq.symm
      · rename_i heq
        exact heq.symm
  · rintro hssr sk hsk hen
    simp [createSPAConfig, hssr, hsk, hen]
    split
    · rename_i heq
      rw [heq]
      rfl
    · rename_i heq
      rw [heq]
      rfl
  · intro stA st1 hok
    by_cases hp : env.pathExists (env.joinPath cfg.rootDir ("core/" ++ TEMPLATE_HTML)) = false
    · simp [addHtmlPlugin, hp] at hok
    · simp only [Bool.not_eq_false] at hp
      cases w <;> simp [addHtmlPlugin, hp] at hok <;> subst hok <;> simp

/-- Witness for C7 at a concrete input: with `build.ssr` true the config is
returned with an empty entry and the original plugins. -/
theorem createSPAConfig_conditional_witness :
    (({ rootDir := "/root", ssr := true, routerMode := "history",
        routerBase := "/", skeleton := some { enable := true } } : Config).ssr = true) ∧
    createSPAConfig (mkEnv [])
        { rootDir := "/root", ssr := true, routerMode := "history",
          routerBase := "/", skeleton := some { enable := true } } false (st0 []) =
      Except.ok { st0 [] with spa := { (st0 []).spa with
        entry := [], name := "spaclient", context := "/root" } } := by
  refine ⟨rfl, ?_⟩
  exact (createSPAConfig_conditional (mkEnv [])
    { rootDir := "/root", ssr := true, routerMode := "history",
      routerBase := "/", skeleton := some { enable := true } } false (st0 [])).1 rfl
